import Mathlib

/-!
# The LaTeX controller

A shallow embedding of `src/control/LatexController.cpp`.

The controller is glue code: it reads from and calls into collaborators (the
document, the page view, the edit dialog, glib, poppler, the undo handler).
The embedding keeps

* the controller's own fields in `State`,
* the document lock as a counter `State.lockCount`,
* every call on a collaborator as an entry of `State.log`, in program order,
  each entry stamped with the lock counter at the moment of the call,
* everything a collaborator answers as a field of `Env`.

A member call through a pointer that the controller itself leaves null
(`view`, `layer`) aborts the run: such functions return `Except State State`,
the error side carrying the state reached at the null dereference.
-/

namespace LatexController

/-! ## Data model -/

/-- A non-null `XojPageView*`. -/
abbrev ViewRef := Nat

/-- A `PageRef` handed out by the document. -/
abbrev PageRef := Nat

/-- A non-null `Layer*`. -/
abbrev LayerRef := Nat

/-- What `gdk_pixbuf_get_width` and `gdk_pixbuf_get_height` answer for a
`GdkPixbuf*`. gdk-pixbuf answers a height of at least 1 for a pixbuf and -1 for
a null pointer, never 0, so the quotient of width by height is a rational. -/
structure Pixbuf where
  width : Int
  height : Int
  height_ne_zero : height ≠ 0
deriving DecidableEq

/-- A `TexImage` element: position, size, the LaTeX text and the picture. -/
structure TexImage where
  x : ℚ
  y : ℚ
  width : ℚ
  height : ℚ
  text : String
  image : Pixbuf
deriving DecidableEq

/-- A `Text` element, as far as the controller reads it. -/
structure Text where
  text : String
  width : ℚ
  height : ℚ
deriving DecidableEq

/-- The element wrapped in the selection that `deleteOldImage` deletes. -/
inductive Element where
  | tex (img : TexImage)
  | text (t : Text)
deriving DecidableEq

/-- A `PopplerDocument`: its page count and the size of page 0. -/
structure PopplerDocument where
  nPages : Int
  pageWidth : ℚ
  pageHeight : ℚ
deriving DecidableEq

/-- The arguments of `new InsertUndoAction(page, layer, img)`. -/
structure InsertUndoAction where
  page : Option PageRef
  layer : LayerRef
  element : Option TexImage
deriving DecidableEq

/-- The arguments of `new EditSelection(undoHandler, img, view, page)`. -/
structure EditSelection where
  element : Option TexImage
  view : ViewRef
  page : Option PageRef
deriving DecidableEq

/-- A call of the controller on one of its collaborators. -/
inductive Event where
  | showErrorToUser (msg : String)
  | docLock
  | docUnlock
  | clearSelectionEndText
  | dialogSetTex (tex : String)
  | dialogSetTempRender (image : Pixbuf) (size : Nat)
  | dialogShow
  | fileSetContents (file : String) (contents : String) (length : Nat)
  | spawnSync (workingDir : String) (argv : List String)
  | deleteSelection (e : Element) (view : ViewRef) (page : Option PageRef)
  | addElement (layer : LayerRef) (img : Option TexImage)
  | rerenderElement (view : ViewRef) (img : Option TexImage)
  | addUndoAction (action : InsertUndoAction)
  | setSelection (sel : EditSelection)
deriving DecidableEq

/-- A log entry: the call and the value of the lock counter when it was made. -/
structure Logged where
  ev : Event
  depth : Nat
deriving DecidableEq

/-- What the user does with the edit dialog: the successive contents of the
text buffer at each `changed` signal, and what `getTex` answers afterwards. -/
structure DialogSession where
  changes : List String
  tex : String

/-- The answers of the collaborators. The fallible calls of glib and poppler
may answer differently from one call to the next: they receive the log so far. -/
structure Env where
  /-- `g_find_program_in_path`. -/
  findProgramInPath : String → Option String
  /-- `control->getCurrentPageNo()`. -/
  getCurrentPageNo : Int
  /-- `getViewFor(pageNr)`, none for a null pointer. -/
  getViewFor : Int → Option ViewRef
  /-- `doc->getPage(pageNr)`. -/
  getPage : Int → PageRef
  /-- `page->getSelectedLayer()`. -/
  getSelectedLayer : PageRef → LayerRef
  /-- `view->getSelectedTex()`. -/
  getSelectedTex : ViewRef → Option TexImage
  /-- `view->getSelectedText()`. -/
  getSelectedText : ViewRef → Option Text
  /-- `theSelection->getXOnView()`. -/
  getXOnView : ℚ
  /-- `theSelection->getYOnView()`. -/
  getYOnView : ℚ
  /-- Conversion of a `double` to the declared type of the fields `posx`,
  `posy`, `imgwidth`, `imgheight` (declared in `LatexController.h`). -/
  toField : ℚ → ℚ
  /-- The user in front of the dialog that was given this text. -/
  dialog : String → DialogSession
  /-- `g_file_set_contents`: none on success, the error message otherwise. -/
  fileSetContents : List Logged → String → String → Option String
  /-- `g_strescape`. -/
  strescape : String → String
  /-- `g_spawn_sync`: none on success, the error message and the value left
  in `returnCode` otherwise. -/
  spawnSync : List Logged → String → List String → Option (String × Int)
  /-- `Path::toUri`. -/
  toUri : List Logged → String → Except String String
  /-- `poppler_document_new_from_file`. -/
  popplerDocumentNewFromFile : List Logged → String → Except String PopplerDocument
  /-- `xoj_pixbuf_get_from_surface` on a surface of the given size. -/
  pixbufFromSurface : Int → Int → Pixbuf

/-- The controller's fields, the document lock and the log of calls. -/
structure State where
  posx : ℚ
  posy : ℚ
  imgwidth : ℚ
  imgheight : ℚ
  view : Option ViewRef
  page : Option PageRef
  layer : Option LayerRef
  texTmp : String
  binTex : String
  initalTex : String
  currentTex : String
  selectedTexImage : Option TexImage
  selectedText : Option Text
  temporaryRender : Option TexImage
  lockCount : Nat
  log : List Logged

/-- The constructor `LatexController::LatexController`, on a document whose
lock is free and with an empty log. -/
def init (texTmp : String) : State :=
  { posx := 0, posy := 0, imgwidth := 0, imgheight := 0,
    view := none, page := none, layer := none,
    texTmp := texTmp, binTex := "", initalTex := "", currentTex := "",
    selectedTexImage := none, selectedText := none, temporaryRender := none,
    lockCount := 0, log := [] }

/-! ## Constants and helpers -/

def LATEX_TEMPLATE_1 : String :=
  "\\documentclass[border=5pt]\x7bstandalone\x7d\n" ++
  "\\usepackage\x7bamsmath\x7d\n" ++
  "\\begin\x7bdocument\x7d\n" ++
  "\\(\\displaystyle\n"

def LATEX_TEMPLATE_2 : String :=
  "\n\\)\n" ++
  "\\end\x7bdocument\x7d\n"

/-- The C `isspace` in the default locale. -/
def isspace (c : Char) : Bool :=
  c = ' ' || c = '\t' || c = '\n' || c = '\x0b' || c = '\x0c' || c = '\r'

/-- Modelled from the spec: `StringUtils::trim` (its definition is not among
the sources), which removes the whitespace at both ends of a string. -/
def trim (str : String) : String :=
  ⟨((str.data.dropWhile isspace).reverse.dropWhile isspace).reverse⟩

/-- The C conversion `(int) q`: truncation towards zero. -/
def truncToInt (q : ℚ) : Int := q.num.tdiv q.den

/-- Record a call. -/
def emit (ev : Event) (s : State) : State :=
  { s with log := s.log ++ [⟨ev, s.lockCount⟩] }

/-- `XojMsgBox::showErrorToUser`. -/
def showErrorToUser (msg : String) (s : State) : State :=
  emit (.showErrorToUser msg) s

/-- `doc->lock()`. -/
def docLock (s : State) : State :=
  emit .docLock { s with lockCount := s.lockCount + 1 }

/-- `doc->unlock()`. -/
def docUnlock (s : State) : State :=
  emit .docUnlock { s with lockCount := s.lockCount - 1 }

/-! ## The controller -/

/-- `LatexController::findTexExecutable`. -/
def findTexExecutable (env : Env) (s : State) : Bool × State :=
  match env.findProgramInPath "pdflatex" with
  | none => (false, s)
  | some pdflatex => (true, { s with binTex := pdflatex })

/-- `LatexController::runCommand`. -/
def runCommand (env : Env) (s : State) : Bool × State :=
  let texContents := LATEX_TEMPLATE_1 ++ s.currentTex ++ LATEX_TEMPLATE_2
  let texFile := s.texTmp ++ "/tex.tex"
  let s1 := emit (.fileSetContents texFile texContents texContents.utf8ByteSize) s
  match env.fileSetContents s.log texFile texContents with
  | some msg => (false, showErrorToUser ("Could not save .tex file: " ++ msg) s1)
  | none =>
    let argv := [s.binTex, env.strescape texFile]
    let s2 := emit (.spawnSync s.texTmp argv) s1
    match env.spawnSync s1.log s.texTmp argv with
    | some (msg, returnCode) =>
      (false, showErrorToUser
        ("Could not convert tex to PDF: " ++ msg ++ " (exit code: " ++ toString returnCode ++ ")") s2)
    | none => (true, s2)

/-- `LatexController::findSelectedTexElement`. -/
def findSelectedTexElement (env : Env) (s : State) : State :=
  let s := docLock s
  let pageNr := env.getCurrentPageNo
  if pageNr = -1 then docUnlock s
  else
    let s := { s with view := env.getViewFor pageNr }
    match env.getViewFor pageNr with
    | none => docUnlock s
    | some v =>
      let page := env.getPage pageNr
      let s := { s with page := some page, layer := some (env.getSelectedLayer page) }
      let s := { s with selectedTexImage := env.getSelectedTex v,
                        selectedText := env.getSelectedText v }
      let s :=
        match s.selectedTexImage, s.selectedText with
        | some img, _ =>
          { s with posx := env.toField env.getXOnView, posy := env.toField env.getYOnView,
                   initalTex := img.text,
                   imgwidth := env.toField img.width, imgheight := env.toField img.height }
        | none, some t =>
          { s with posx := env.toField env.getXOnView, posy := env.toField env.getYOnView,
                   initalTex := s.initalTex ++ "\\text\x7b" ++ t.text ++ "\x7d",
                   imgwidth := env.toField t.width, imgheight := env.toField t.height }
        | none, none => s
      let s := if s.initalTex = "" then { s with initalTex := "x^2" } else s
      let s := { s with currentTex := s.initalTex }
      let s := docUnlock s
      emit .clearSelectionEndText s

/-- `LatexController::deletePreviousRender`. -/
def deletePreviousRender (s : State) : State :=
  { s with temporaryRender := none }

/-- `LatexController::setCurrentTex`. -/
def setCurrentTex (currentTex : String) (s : State) : State :=
  { s with currentTex := currentTex }

/-- `LatexController::setImageInDialog`. -/
def setImageInDialog (image : Pixbuf) (s : State) : State :=
  emit (.dialogSetTempRender image s.currentTex.utf8ByteSize) s

/-- `LatexController::loadRenderedPDF`. -/
def loadRenderedPDF (env : Env) (s : State) : Option PopplerDocument × State :=
  let pdfPath := s.texTmp ++ "/tex.pdf"
  match env.toUri s.log pdfPath with
  | .error msg =>
    (none, showErrorToUser ("Could not load LaTeX PDF file, URL-Error: " ++ msg) s)
  | .ok uri =>
    match env.popplerDocumentNewFromFile s.log uri with
    | .error msg => (none, showErrorToUser ("Could not load LaTeX PDF file: " ++ msg) s)
    | .ok doc => (some doc, s)

/-- The rendering steps of `convertDocumentToImage`: page 0 is drawn at zoom 5
on a cairo surface of `(int)(pageWidth * zoom)` by `(int)(pageHeight * zoom)`
pixels, and the surface is turned into a pixbuf. -/
def renderFirstPage (env : Env) (doc : PopplerDocument) : Pixbuf :=
  let zoom : ℚ := 5
  env.pixbufFromSurface (truncToInt (doc.pageWidth * zoom)) (truncToInt (doc.pageHeight * zoom))

/-- `LatexController::convertDocumentToImage`, over the rationals. -/
def convertDocumentToImage (env : Env) (s : State) (doc : PopplerDocument) : Option TexImage :=
  if doc.nPages < 1 then none
  else
    let pixbuf := renderFirstPage env doc
    let img : TexImage :=
      { x := s.posx, y := s.posy, width := 0, height := 0, text := s.currentTex, image := pixbuf }
    if s.imgheight ≠ 0 then
      let ratio : ℚ := (pixbuf.width : ℚ) / (pixbuf.height : ℚ)
      let img :=
        if ratio = 0 then
          if s.imgwidth = 0 then { img with width := 10 } else { img with width := s.imgwidth }
        else { img with width := s.imgheight * ratio }
      some { img with height := s.imgheight }
    else
      some { img with width := (pixbuf.width : ℚ), height := (pixbuf.height : ℚ) }

/-- `LatexController::loadRendered`. -/
def loadRendered (env : Env) (s : State) : Option TexImage × State :=
  match loadRenderedPDF env s with
  | (none, s1) => (none, s1)
  | (some pdf, s1) => (convertDocumentToImage env s1 pdf, s1)

/-- `LatexController::handleTexChanged`, called with the contents of the
text buffer. -/
def handleTexChanged (env : Env) (buffer : String) (self : State) : State :=
  let s := setCurrentTex buffer self
  let s := deletePreviousRender s
  let s := (runCommand env s).2
  let r := loadRendered env s
  let s := { r.2 with temporaryRender := r.1 }
  match s.temporaryRender with
  | some img => setImageInDialog img.image s
  | none => s

/-- `LatexController::showTexEditDialog`. While the dialog is shown, every
`changed` signal of its text buffer runs `handleTexChanged`. -/
def showTexEditDialog (env : Env) (s : State) : State :=
  let session := env.dialog s.initalTex
  let s := emit (.dialogSetTex s.initalTex) s
  let s :=
    match s.temporaryRender with
    | some r => emit (.dialogSetTempRender r.image s.initalTex.utf8ByteSize) s
    | none => s
  let s := emit .dialogShow s
  let s := session.changes.foldl (fun st buffer => handleTexChanged env buffer st) s
  let s := deletePreviousRender s
  let s := { s with currentTex := session.tex }
  { s with currentTex := s.currentTex ++ " " }

/-- `LatexController::deleteOldImage`. -/
def deleteOldImage (s : State) : Except State State :=
  match s.selectedTexImage, s.selectedText with
  | some img, _ =>
    match s.view with
    | none => .error s
    | some v => .ok { emit (.deleteSelection (.tex img) v s.page) s with selectedTexImage := none }
  | none, some t =>
    match s.view with
    | none => .error s
    | some v => .ok { emit (.deleteSelection (.text t) v s.page) s with selectedText := none }
  | none, none => .ok s

/-- The part of `LatexController::insertTexImage` after `deleteOldImage`. -/
def addTexImage (img : Option TexImage) (s : State) : Except State State :=
  let s := docLock s
  match s.layer with
  | none => .error s
  | some layer =>
    let s := emit (.addElement layer img) s
    match s.view with
    | none => .error s
    | some view =>
      let s := emit (.rerenderElement view img) s
      let s := docUnlock s
      let s := emit (.addUndoAction ⟨s.page, layer, img⟩) s
      .ok (emit (.setSelection ⟨img, view, s.page⟩) s)

/-- `LatexController::insertTexImage`. -/
def insertTexImage (env : Env) (s : State) : Except State State :=
  let r := loadRendered env s
  match deleteOldImage r.2 with
  | .error s1 => .error s1
  | .ok s1 => addTexImage r.1 s1

/-- `LatexController::run`. -/
def run (env : Env) (s : State) : Except State State :=
  match findTexExecutable env s with
  | (false, s1) => .ok (showErrorToUser "Could not find pdflatex in Path." s1)
  | (true, s1) =>
    let s2 := findSelectedTexElement env s1
    let s3 := showTexEditDialog env s2
    if trim s3.currentTex = "" ∨ s3.initalTex = s3.currentTex then
      .ok s3
    else
      match runCommand env s3 with
      | (false, s4) => .ok (showErrorToUser "Failed to generate LaTeX image!" s4)
      | (true, s4) => insertTexImage env s4

/-! ## Vocabulary of the statements -/

/-- The state a run stops in, whether it returned or aborted. -/
def reached : Except State State → State
  | .ok s => s
  | .error s => s

/-- The log entries added between state `s` and a later state `s1`. -/
def newEntries (s s1 : State) : List Logged :=
  s1.log.drop s.log.length

/-- The calls made between state `s` and a later state `s1`. -/
def newCalls (s s1 : State) : List Event :=
  (newEntries s s1).map Logged.ev

/-- The `(file, contents, length)` triples of the `g_file_set_contents` calls. -/
def fileWrites (calls : List Event) : List (String × String × Nat) :=
  calls.filterMap fun e =>
    match e with
    | .fileSetContents f c n => some (f, c, n)
    | _ => none

/-- The call is `layer->addElement`. -/
def Event.isAddElement : Event → Bool
  | .addElement _ _ => true
  | _ => false

/-- Calls that change the elements of the layer or the undo stack. -/
def Event.changesLayerOrUndo : Event → Bool
  | .deleteSelection _ _ _ => true
  | .addElement _ _ => true
  | .addUndoAction _ => true
  | _ => false

/-- The calls of `deleteOldImage` in state `s` with view `v`: the selected
tex image if there is one, or else the selected text, or else nothing. -/
def deletions (s : State) (v : ViewRef) : List Event :=
  match s.selectedTexImage, s.selectedText with
  | some old, _ => [.deleteSelection (.tex old) v s.page]
  | none, some old => [.deleteSelection (.text old) v s.page]
  | none, none => []

/-- The six calls of `insertTexImage` after `deleteOldImage`, each with the
lock counter at the call, for a counter of `n` on entry. -/
def insertEntries (n : Nat) (page : Option PageRef) (v : ViewRef) (l : LayerRef)
    (img : Option TexImage) : List Logged :=
  [⟨.docLock, n + 1⟩,
   ⟨.addElement l img, n + 1⟩,
   ⟨.rerenderElement v img, n + 1⟩,
   ⟨.docUnlock, n⟩,
   ⟨.addUndoAction ⟨page, l, img⟩, n⟩,
   ⟨.setSelection ⟨img, v, page⟩, n⟩]

/-- The state in which `run` reaches its check after the dialog, when
pdflatex was found. -/
def afterDialog (env : Env) (s : State) : State :=
  showTexEditDialog env (findSelectedTexElement env (findTexExecutable env s).2)

/-- What `dlg->getTex()` answers in `run`. -/
def dialogText (env : Env) (s : State) : String :=
  (env.dialog (findSelectedTexElement env (findTexExecutable env s).2).initalTex).tex

/-- No call between `s` and `s1` changes the layer or the undo stack. -/
def Quiet (s s1 : State) : Prop :=
  ∃ ext, s1.log = s.log ++ ext ∧ ∀ e ∈ ext, e.ev.changesLayerOrUndo = false

/-! ## Concrete environments -/

/-- A working installation: pdflatex is found, page 0 is shown in view 1 with
selected layer 3, nothing is selected, the user confirms the dialog without
touching the text, every file and process call succeeds and the rendered
page measures 20 by 10 points. -/
def exampleEnv : Env :=
  { findProgramInPath := fun _ => some "/usr/bin/pdflatex",
    getCurrentPageNo := 0,
    getViewFor := fun _ => some 1,
    getPage := fun _ => 2,
    getSelectedLayer := fun _ => 3,
    getSelectedTex := fun _ => none,
    getSelectedText := fun _ => none,
    getXOnView := 0,
    getYOnView := 0,
    toField := id,
    dialog := fun t => ⟨[], t⟩,
    fileSetContents := fun _ _ _ => none,
    strescape := id,
    spawnSync := fun _ _ _ => none,
    toUri := fun _ p => .ok ("file://" ++ p),
    popplerDocumentNewFromFile := fun _ _ => .ok ⟨1, 20, 10⟩,
    pixbufFromSurface := fun w h => if hh : h = 0 then ⟨w, 1, by decide⟩ else ⟨w, h, hh⟩ }

/-- The same installation without pdflatex. -/
def noTexEnv : Env :=
  { exampleEnv with findProgramInPath := fun _ => none }

/-- The same installation with a text element selected. -/
def textSelectedEnv : Env :=
  { exampleEnv with getSelectedText := fun _ => some ⟨"a+b", 30, 12⟩ }

/-- A controller that replaces an element 12 units high. -/
def replacingState : State :=
  { init "/tmp/tex" with imgwidth := 30, imgheight := 12, currentTex := "a+b " }

/-- A one-page document of 20 by 10 points. -/
def exampleDoc : PopplerDocument := ⟨1, 20, 10⟩

/-- The controller after `findSelectedTexElement` in the working installation:
view 1, layer 3, page 2, nothing selected, tex `x^2`. -/
def readyState : State :=
  findSelectedTexElement exampleEnv (init "/tmp/tex")

/-- The image that `loadRendered` yields in `readyState`. -/
def exampleImage : TexImage :=
  ⟨0, 0, 100, 50, "x^2", ⟨100, 50, by decide⟩⟩

/-! ## Auxiliary facts -/

set_option maxRecDepth 100000

theorem newEntries_of_append (s s1 : State) (ext : List Logged) (h : s1.log = s.log ++ ext) :
    newEntries s s1 = ext := by
  simp [newEntries, h]

theorem utf8ByteSize_append (a b : String) :
    (a ++ b).utf8ByteSize = a.utf8ByteSize + b.utf8ByteSize := by
  cases a with
  | mk as =>
    cases b with
    | mk bs =>
      show String.utf8Len (as ++ bs) = String.utf8Len as + String.utf8Len bs
      exact String.utf8Len_append as bs

theorem text_braces_ne_empty (t : String) : "\\text\x7b" ++ t ++ "\x7d" ≠ "" := by
  intro h
  have hlen := congrArg String.length h
  simp at hlen
  exact absurd hlen.1.1 (by decide)

/-- A string trims to the empty string exactly when all its characters are
whitespace. -/
theorem trim_eq_empty_iff (t : String) : trim t = "" ↔ ∀ c ∈ t.data, isspace c = true := by
  have h0 : trim t = "" ↔ (t.data.dropWhile isspace).reverse.dropWhile isspace = [] := by
    unfold trim
    constructor
    · intro h
      have := congrArg String.data h
      simpa using this
    · intro h
      rw [h]; rfl
  rw [h0, List.dropWhile_eq_nil_iff]
  constructor
  · intro h
    have h1 : t.data.dropWhile isspace = [] := by
      cases hd : t.data.dropWhile isspace with
      | nil => rfl
      | cons a as =>
        have ha : isspace a = true := h a (by simp [hd])
        have hna := List.head_dropWhile_not isspace t.data (by simp [hd])
        simp [hd] at hna
        rw [ha] at hna
        exact absurd hna (by decide)
    exact List.dropWhile_eq_nil_iff.mp h1
  · intro h c hc
    have hc1 : c ∈ t.data.dropWhile isspace := by simpa using hc
    exact h c ((List.dropWhile_suffix isspace).subset hc1)

/-- The space that `showTexEditDialog` appends does not change whether the
text trims to the empty string. -/
theorem trim_append_space (t : String) : trim (t ++ " ") = "" ↔ trim t = "" := by
  rw [trim_eq_empty_iff, trim_eq_empty_iff]
  simp only [String.data_append]
  constructor
  · intro h c hc
    exact h c (List.mem_append_left _ hc)
  · intro h c hc
    rcases List.mem_append.mp hc with hc | hc
    · exact h c hc
    · have : c = ' ' := by simpa using hc
      subst this
      decide

/-! ### The log of each function -/

theorem findTexExecutable_log (env : Env) (s : State) :
    (findTexExecutable env s).2.log = s.log := by
  unfold findTexExecutable
  split <;> rfl

theorem findSelectedTexElement_log (env : Env) (s : State) :
    (findSelectedTexElement env s).lockCount = s.lockCount ∧
    (findSelectedTexElement env s).log = s.log ++
      (⟨.docLock, s.lockCount + 1⟩ :: ⟨.docUnlock, s.lockCount⟩ ::
        if env.getCurrentPageNo ≠ -1 ∧ (env.getViewFor env.getCurrentPageNo).isSome
        then [⟨.clearSelectionEndText, s.lockCount⟩] else []) := by
  by_cases hpage : env.getCurrentPageNo = -1
  · simp [findSelectedTexElement, hpage, docLock, docUnlock, emit]
  · cases hview : env.getViewFor env.getCurrentPageNo with
    | none => simp [findSelectedTexElement, hpage, hview, docLock, docUnlock, emit]
    | some v =>
      have hc : env.getCurrentPageNo ≠ -1 ∧ (some v : Option ViewRef).isSome = true :=
        ⟨hpage, rfl⟩
      rw [if_pos hc]
      cases htex : env.getSelectedTex v with
      | some img =>
        by_cases hi : img.text = "" <;>
          simp [findSelectedTexElement, hpage, hview, htex, hi, docLock, docUnlock, emit]
      | none =>
        cases htext : env.getSelectedText v with
        | some t =>
          by_cases hi : s.initalTex ++ "\\text\x7b" ++ t.text ++ "\x7d" = "" <;>
            simp [findSelectedTexElement, hpage, hview, htex, htext, hi, docLock, docUnlock, emit]
        | none =>
          by_cases hi : s.initalTex = "" <;>
            simp [findSelectedTexElement, hpage, hview, htex, htext, hi, docLock, docUnlock, emit]

theorem loadRendered_some (env : Env) (s : State) (img : TexImage)
    (h : (loadRendered env s).1 = some img) : (loadRendered env s).2 = s := by
  revert h
  cases hu : env.toUri s.log (s.texTmp ++ "/tex.pdf") with
  | error msg => simp [loadRendered, loadRenderedPDF, hu]
  | ok uri =>
    cases hp : env.popplerDocumentNewFromFile s.log uri with
    | error msg => simp [loadRendered, loadRenderedPDF, hu, hp]
    | ok doc => simp [loadRendered, loadRenderedPDF, hu, hp]

/-- The calls of `loadRendered` are error messages, and it changes nothing but the log. -/
theorem loadRendered_log (env : Env) (s : State) :
    ∃ ext, (loadRendered env s).2 = { s with log := s.log ++ ext } ∧
      ∀ e ∈ ext, ∃ msg, e.ev = .showErrorToUser msg := by
  cases hu : env.toUri s.log (s.texTmp ++ "/tex.pdf") with
  | error msg =>
    simp only [loadRendered, loadRenderedPDF, hu]
    exact ⟨[_], rfl, by simp⟩
  | ok uri =>
    cases hp : env.popplerDocumentNewFromFile s.log uri with
    | error msg =>
      simp only [loadRendered, loadRenderedPDF, hu, hp]
      exact ⟨[_], rfl, by simp⟩
    | ok doc =>
      simp only [loadRendered, loadRenderedPDF, hu, hp]
      exact ⟨[], by simp, by simp⟩

theorem deleteOldImage_log (s : State) (v : ViewRef) (hv : s.view = some v) :
    ∃ s1, deleteOldImage s = .ok s1 ∧ s1.lockCount = s.lockCount ∧ s1.view = s.view ∧
      s1.layer = s.layer ∧ s1.page = s.page ∧
      s1.log = s.log ++ (deletions s v).map (fun ev => ⟨ev, s.lockCount⟩) := by
  cases htex : s.selectedTexImage with
  | some old =>
    simp only [deleteOldImage, htex, hv, deletions]
    refine ⟨_, rfl, ?_, ?_, ?_, ?_, ?_⟩ <;> simp [emit, hv]
  | none =>
    cases htext : s.selectedText with
    | some old =>
      simp only [deleteOldImage, htex, htext, hv, deletions]
      refine ⟨_, rfl, ?_, ?_, ?_, ?_, ?_⟩ <;> simp [emit, hv]
    | none =>
      simp only [deleteOldImage, htex, htext, hv, deletions]
      refine ⟨_, rfl, ?_, ?_, ?_, ?_, ?_⟩ <;> simp [hv]

theorem addTexImage_log (img : Option TexImage) (s : State) (v : ViewRef) (l : LayerRef)
    (hv : s.view = some v) (hl : s.layer = some l) :
    ∃ s1, addTexImage img s = .ok s1 ∧ s1.lockCount = s.lockCount ∧
      s1.log = s.log ++ insertEntries s.lockCount s.page v l img := by
  simp only [addTexImage, docLock, docUnlock, emit, hv, hl]
  exact ⟨_, rfl, by simp, by simp [insertEntries]⟩

/-- With a view and a layer, `insertTexImage` returns; its log is the error
messages of `loadRendered` (none when an image was loaded), the deletion of
the old element, and the six calls of the insertion. -/
theorem insertTexImage_log (env : Env) (s : State) (v : ViewRef) (l : LayerRef)
    (hv : s.view = some v) (hl : s.layer = some l) :
    ∃ s1 errs, insertTexImage env s = .ok s1 ∧ s1.lockCount = s.lockCount ∧
      (∀ e ∈ errs, ∃ msg, e.ev = .showErrorToUser msg) ∧
      ((loadRendered env s).1.isSome → errs = []) ∧
      s1.log = s.log ++ errs ++ (deletions s v).map (fun ev => ⟨ev, s.lockCount⟩) ++
        insertEntries s.lockCount s.page v l (loadRendered env s).1 := by
  obtain ⟨ext, hext, herr⟩ := loadRendered_log env s
  have hv2 : (loadRendered env s).2.view = some v := by rw [hext]; exact hv
  obtain ⟨s1, h1, hlock1, hview1, hlayer1, hpage1, hlog1⟩ :=
    deleteOldImage_log (loadRendered env s).2 v hv2
  have hv3 : s1.view = some v := by rw [hview1, hext]; exact hv
  have hl3 : s1.layer = some l := by rw [hlayer1, hext]; exact hl
  obtain ⟨s2, h2, hlock2, hlog2⟩ := addTexImage_log (loadRendered env s).1 s1 v l hv3 hl3
  refine ⟨s2, ext, ?_, ?_, herr, ?_, ?_⟩
  · simp only [insertTexImage, h1, h2]
  · rw [hlock2, hlock1, hext]
  · intro hsome
    obtain ⟨img, himg⟩ := Option.isSome_iff_exists.mp hsome
    have := loadRendered_some env s img himg
    rw [this] at hext
    have := congrArg State.log hext
    simpa using this
  · rw [hlog2, hlog1, hlock1, hpage1, hext]
    simp [deletions, insertEntries]

/-- When `insertTexImage` returns, the controller had a view and a layer. -/
theorem insertTexImage_ok_inv (env : Env) (t t1 : State) (h : insertTexImage env t = .ok t1) :
    ∃ v l, t.view = some v ∧ t.layer = some l := by
  obtain ⟨ext, hext, _⟩ := loadRendered_log env t
  simp only [insertTexImage, hext] at h
  cases hv : t.view with
  | none =>
    exfalso
    cases hl : t.layer <;> cases htex : t.selectedTexImage <;> cases htext : t.selectedText <;>
      simp [deleteOldImage, addTexImage, docLock, docUnlock, emit, htex, htext, hv, hl] at h
  | some v =>
    cases hl : t.layer with
    | some l => exact ⟨v, l, rfl, rfl⟩
    | none =>
      exfalso
      cases htex : t.selectedTexImage <;> cases htext : t.selectedText <;>
        simp [deleteOldImage, addTexImage, docLock, docUnlock, emit, htex, htext, hv, hl] at h

/-! ### Calls that leave the layer and the undo stack alone -/

theorem quiet_refl (s : State) : Quiet s s := ⟨[], by simp, by simp⟩

theorem quiet_of_log_eq {s s1 : State} (h : s1.log = s.log) : Quiet s s1 :=
  ⟨[], by simp [h], by simp⟩

theorem quiet_trans {s s1 s2 : State} (h1 : Quiet s s1) (h2 : Quiet s1 s2) : Quiet s s2 := by
  obtain ⟨e1, hl1, hq1⟩ := h1
  obtain ⟨e2, hl2, hq2⟩ := h2
  refine ⟨e1 ++ e2, by rw [hl2, hl1, List.append_assoc], ?_⟩
  intro e he
  rcases List.mem_append.mp he with he | he
  · exact hq1 e he
  · exact hq2 e he

theorem quiet_emit (ev : Event) (s : State) (h : ev.changesLayerOrUndo = false) :
    Quiet s (emit ev s) :=
  ⟨[⟨ev, s.lockCount⟩], rfl, by simpa using h⟩

theorem quiet_no_change {s s1 : State} (h : Quiet s s1) :
    (newCalls s s1).any Event.changesLayerOrUndo = false := by
  obtain ⟨ext, hl, hq⟩ := h
  rw [newCalls, newEntries_of_append s s1 ext hl]
  simpa using hq

theorem runCommand_quiet (env : Env) (s : State) : Quiet s (runCommand env s).2 := by
  unfold runCommand
  simp only []
  split
  · refine quiet_trans (quiet_emit _ s ?_) (quiet_emit _ _ ?_) <;> rfl
  · split
    · refine quiet_trans (quiet_trans (quiet_emit _ s ?_) (quiet_emit _ _ ?_))
        (quiet_emit _ _ ?_) <;> rfl
    · refine quiet_trans (quiet_emit _ s ?_) (quiet_emit _ _ ?_) <;> rfl

theorem loadRendered_quiet (env : Env) (s : State) : Quiet s (loadRendered env s).2 := by
  obtain ⟨ext, hext, herr⟩ := loadRendered_log env s
  refine ⟨ext, by rw [hext], ?_⟩
  intro e he
  obtain ⟨msg, hmsg⟩ := herr e he
  rw [hmsg]; rfl

theorem handleTexChanged_quiet (env : Env) (buffer : String) (s : State) :
    Quiet s (handleTexChanged env buffer s) := by
  unfold handleTexChanged
  simp only []
  have h1 : Quiet s (runCommand env (deletePreviousRender (setCurrentTex buffer s))).2 :=
    quiet_trans (quiet_of_log_eq rfl) (runCommand_quiet env _)
  have h2 := quiet_trans h1 (loadRendered_quiet env _)
  cases hr : (loadRendered env
      (runCommand env (deletePreviousRender (setCurrentTex buffer s))).2).1 with
  | none => exact quiet_trans h2 (quiet_of_log_eq rfl)
  | some img =>
    refine quiet_trans (quiet_trans h2 (quiet_of_log_eq rfl)) (quiet_emit _ _ ?_)
    rfl

theorem foldl_handleTexChanged_quiet (env : Env) (changes : List String) (s : State) :
    Quiet s (changes.foldl (fun st buffer => handleTexChanged env buffer st) s) := by
  induction changes generalizing s with
  | nil => exact quiet_refl s
  | cons b bs ih => exact quiet_trans (handleTexChanged_quiet env b s) (ih _)

theorem showTexEditDialog_quiet (env : Env) (s : State) : Quiet s (showTexEditDialog env s) := by
  unfold showTexEditDialog
  simp only []
  have h1 : Quiet s (emit (.dialogSetTex s.initalTex) s) := quiet_emit _ _ rfl
  refine quiet_trans ?_ (quiet_of_log_eq rfl)
  refine quiet_trans ?_ (foldl_handleTexChanged_quiet env _ _)
  refine quiet_trans ?_ (quiet_emit _ _ rfl)
  split
  · exact quiet_trans h1 (quiet_emit _ _ rfl)
  · exact h1

theorem findSelectedTexElement_quiet (env : Env) (s : State) :
    Quiet s (findSelectedTexElement env s) := by
  obtain ⟨_, h2⟩ := findSelectedTexElement_log env s
  refine ⟨_, h2, ?_⟩
  intro e he
  split at he <;> simp at he <;> rcases he with rfl | rfl | rfl <;> rfl

/-! ## Properties of the controller -/

/-- C1: when `findTexExecutable` returns false, `run` returns normally and the
state it returns is the state it was given with exactly one more log entry, the
error message "Could not find pdflatex in Path.". Every field of the controller
is as before and its only call is that message: no selection lookup, no dialog,
no `runCommand`, no element added or deleted, no undo action, no call on the
selection. -/
theorem run_without_pdflatex (env : Env) (s : State)
    (h : (findTexExecutable env s).1 = false) :
    run env s = .ok { s with log := s.log ++
        [⟨.showErrorToUser "Could not find pdflatex in Path.", s.lockCount⟩] } ∧
      newCalls s (reached (run env s)) =
        [.showErrorToUser "Could not find pdflatex in Path."] := by
  have hf : env.findProgramInPath "pdflatex" = none := by
    unfold findTexExecutable at h
    cases hp : env.findProgramInPath "pdflatex" with
    | none => rfl
    | some p => rw [hp] at h; simp at h
  have hr : run env s = .ok { s with log := s.log ++
        [⟨.showErrorToUser "Could not find pdflatex in Path.", s.lockCount⟩] } := by
    simp [run, findTexExecutable, hf, showErrorToUser, emit]
  refine ⟨hr, ?_⟩
  rw [hr]
  simp [reached, newCalls, newEntries]

theorem run_without_pdflatex_witness :
    (findTexExecutable noTexEnv (init "/tmp/tex")).1 = false ∧
      newCalls (init "/tmp/tex") (reached (run noTexEnv (init "/tmp/tex"))) =
        [.showErrorToUser "Could not find pdflatex in Path."] :=
  ⟨by decide, (run_without_pdflatex noTexEnv (init "/tmp/tex") (by decide)).2⟩

/-- C2: for every `currentTex`, `runCommand` makes exactly one
`g_file_set_contents` call; its file is `texTmp + "/tex.tex"`, its contents are
`LATEX_TEMPLATE_1` followed by `currentTex` followed by `LATEX_TEMPLATE_2`, and
the length it passes is the byte length of that concatenation, which is the sum
of the three byte lengths (93 and 19 bytes for the two templates). -/
theorem runCommand_writes_template (env : Env) (s : State) :
    fileWrites (newCalls s (runCommand env s).2) =
      [(s.texTmp ++ "/tex.tex",
        LATEX_TEMPLATE_1 ++ s.currentTex ++ LATEX_TEMPLATE_2,
        (LATEX_TEMPLATE_1 ++ s.currentTex ++ LATEX_TEMPLATE_2).utf8ByteSize)] ∧
    (LATEX_TEMPLATE_1 ++ s.currentTex ++ LATEX_TEMPLATE_2).utf8ByteSize =
      93 + s.currentTex.utf8ByteSize + 19 ∧
    (LATEX_TEMPLATE_1 ++ s.currentTex ++ LATEX_TEMPLATE_2).data =
      LATEX_TEMPLATE_1.data ++ s.currentTex.data ++ LATEX_TEMPLATE_2.data := by
  refine ⟨?_, ?_, ?_⟩
  · unfold runCommand
    simp only []
    split
    · simp [newCalls, newEntries, showErrorToUser, emit, fileWrites]
    · split <;> simp [newCalls, newEntries, showErrorToUser, emit, fileWrites]
  · rw [utf8ByteSize_append, utf8ByteSize_append]
    have h1 : LATEX_TEMPLATE_1.utf8ByteSize = 93 := by decide
    have h2 : LATEX_TEMPLATE_2.utf8ByteSize = 19 := by decide
    rw [h1, h2]
  · simp

/-- C3: in every run, returned or aborted, in which the controller adds an
element to the layer, deletes one from it or pushes an undo action, pdflatex
was found, the text taken from the dialog is non-empty after trimming, and the
`runCommand` call that follows the dialog returned true. Read backwards: when
the dialog text is empty or all whitespace, or that `runCommand` returns false,
the run makes no call that changes the layer or the undo stack. -/
theorem run_changes_only_after_command (env : Env) (s : State)
    (h : (newCalls s (reached (run env s))).any Event.changesLayerOrUndo = true) :
    (findTexExecutable env s).1 = true ∧
    trim (dialogText env s) ≠ "" ∧
    (runCommand env (afterDialog env s)).1 = true := by
  have hq0 : Quiet s (findTexExecutable env s).2 := quiet_of_log_eq (findTexExecutable_log env s)
  have hq3 : Quiet s (afterDialog env s) :=
    quiet_trans (quiet_trans hq0 (findSelectedTexElement_quiet env _))
      (showTexEditDialog_quiet env _)
  have hcur : (afterDialog env s).currentTex = dialogText env s ++ " " := rfl
  by_contra hcon
  have hquiet : Quiet s (reached (run env s)) := by
    unfold run
    cases hf : findTexExecutable env s with
    | mk b s1 =>
      cases b with
      | false =>
        have hs1 : s1 = (findTexExecutable env s).2 := by rw [hf]
        simp only [reached]
        rw [hs1]
        exact quiet_trans hq0 (quiet_emit _ _ rfl)
      | true =>
        have hs1 : s1 = (findTexExecutable env s).2 := by rw [hf]
        have hs3 : showTexEditDialog env (findSelectedTexElement env s1) = afterDialog env s := by
          rw [hs1]; rfl
        simp only [hs3]
        by_cases hchk : trim (afterDialog env s).currentTex = "" ∨
            (afterDialog env s).initalTex = (afterDialog env s).currentTex
        · rw [if_pos hchk]
          exact hq3
        · rw [if_neg hchk]
          cases hr : runCommand env (afterDialog env s) with
          | mk ok s4 =>
            cases ok with
            | false =>
              have hs4 : s4 = (runCommand env (afterDialog env s)).2 := by rw [hr]
              simp only [reached]
              rw [hs4]
              exact quiet_trans (quiet_trans hq3 (runCommand_quiet env _)) (quiet_emit _ _ rfl)
            | true =>
              exfalso
              apply hcon
              refine ⟨by rw [hf], ?_, by rw [hr]⟩
              intro htrim
              apply hchk
              left
              rw [hcur]
              exact (trim_append_space _).mpr htrim
  rw [quiet_no_change hquiet] at h
  exact absurd h (by decide)

theorem run_changes_only_after_command_witness :
    (newCalls (init "/tmp/tex") (reached (run exampleEnv (init "/tmp/tex")))).any
        Event.changesLayerOrUndo = true ∧
      (findTexExecutable exampleEnv (init "/tmp/tex")).1 = true ∧
      trim (dialogText exampleEnv (init "/tmp/tex")) ≠ "" ∧
      (runCommand exampleEnv (afterDialog exampleEnv (init "/tmp/tex"))).1 = true :=
  ⟨by with_unfolding_all decide,
    run_changes_only_after_command exampleEnv (init "/tmp/tex") (by with_unfolding_all decide)⟩

/-- C4, evaluated where it fails: in the working installation nothing is
selected, so the dialog is given "x^2", and the user returns exactly "x^2".
`run` does not stop at its check: after `dialogShow` it writes the tex file
(with "x^2 ", a space appended), spawns pdflatex, adds the image to layer 3,
pushes the undo action and sets the selection. -/
theorem run_unchanged_text_inserts :
    (findSelectedTexElement exampleEnv
      (findTexExecutable exampleEnv (init "/tmp/tex")).2).initalTex = "x^2" ∧
    dialogText exampleEnv (init "/tmp/tex") = "x^2" ∧
    newCalls (init "/tmp/tex") (reached (run exampleEnv (init "/tmp/tex"))) =
      [.docLock, .docUnlock, .clearSelectionEndText,
       .dialogSetTex "x^2", .dialogShow,
       .fileSetContents "/tmp/tex/tex.tex" (LATEX_TEMPLATE_1 ++ "x^2 " ++ LATEX_TEMPLATE_2) 116,
       .spawnSync "/tmp/tex" ["/usr/bin/pdflatex", "/tmp/tex/tex.tex"],
       .docLock,
       .addElement 3 (some ⟨0, 0, 100, 50, "x^2 ", ⟨100, 50, by decide⟩⟩),
       .rerenderElement 1 (some ⟨0, 0, 100, 50, "x^2 ", ⟨100, 50, by decide⟩⟩),
       .docUnlock,
       .addUndoAction ⟨some 2, 3, some ⟨0, 0, 100, 50, "x^2 ", ⟨100, 50, by decide⟩⟩⟩,
       .setSelection ⟨some ⟨0, 0, 100, 50, "x^2 ", ⟨100, 50, by decide⟩⟩, 1, some 2⟩] := by
  with_unfolding_all decide

/-- C5: on a controller whose `initalTex` is empty, with a current page and a
view for it, `findSelectedTexElement` loads the text of the selected tex image
when that text is non-empty (whatever text element is selected besides),
the selected text wrapped in `\text` and braces when only a text element is
selected, and "x^2" when nothing is selected or the selected tex image has an
empty text. Afterwards `initalTex` is non-empty and `currentTex` equals it. -/
theorem findSelectedTexElement_initial_tex (env : Env) (s : State) (v : ViewRef)
    (hfresh : s.initalTex = "")
    (hpage : env.getCurrentPageNo ≠ -1)
    (hview : env.getViewFor env.getCurrentPageNo = some v) :
    (∀ img, env.getSelectedTex v = some img → img.text ≠ "" →
        (findSelectedTexElement env s).initalTex = img.text) ∧
    (∀ t, env.getSelectedTex v = none → env.getSelectedText v = some t →
        (findSelectedTexElement env s).initalTex = "\\text\x7b" ++ t.text ++ "\x7d") ∧
    (env.getSelectedTex v = none → env.getSelectedText v = none →
        (findSelectedTexElement env s).initalTex = "x^2") ∧
    (∀ img, env.getSelectedTex v = some img → img.text = "" →
        (findSelectedTexElement env s).initalTex = "x^2") ∧
    (findSelectedTexElement env s).initalTex ≠ "" ∧
    (findSelectedTexElement env s).currentTex = (findSelectedTexElement env s).initalTex := by
  have hne := text_braces_ne_empty
  cases htex : env.getSelectedTex v with
  | some img =>
    by_cases htxt : img.text = ""
    · simp [findSelectedTexElement, hpage, hview, htex, htxt, docLock, docUnlock, emit]
    · simp [findSelectedTexElement, hpage, hview, htex, htxt, docLock, docUnlock, emit]
  | none =>
    cases htext : env.getSelectedText v with
    | some t =>
      simp [findSelectedTexElement, hpage, hview, htex, htext, hfresh, hne, docLock, docUnlock, emit]
    | none =>
      simp [findSelectedTexElement, hpage, hview, htex, htext, hfresh, docLock, docUnlock, emit]

theorem findSelectedTexElement_initial_tex_witness :
    (init "/tmp/tex").initalTex = "" ∧ textSelectedEnv.getCurrentPageNo ≠ -1 ∧
      textSelectedEnv.getViewFor textSelectedEnv.getCurrentPageNo = some 1 ∧
      (findSelectedTexElement textSelectedEnv (init "/tmp/tex")).initalTex
        = "\\text\x7ba+b\x7d" :=
  ⟨rfl, by decide, rfl,
    (findSelectedTexElement_initial_tex textSelectedEnv (init "/tmp/tex") 1 rfl (by decide)
      rfl).2.1 ⟨"a+b", 30, 12⟩ rfl rfl⟩

/-- C6: `findSelectedTexElement`, on every path, returns with the lock counter
it was entered with, having called `doc->lock()` once and `doc->unlock()` once.
Every call of `insertTexImage` that returns does so with the lock counter it
was entered with, having called lock once and unlock once; it calls
`layer->addElement` once, and at that call the lock counter is one above its
value on entry: the lock taken by `insertTexImage` is held. `insertTexImage`
returns whenever the controller has a view and a layer. -/
theorem lock_discipline (env : Env) (s t : State) :
    ((findSelectedTexElement env s).lockCount = s.lockCount ∧
      (newCalls s (findSelectedTexElement env s)).count .docLock = 1 ∧
      (newCalls s (findSelectedTexElement env s)).count .docUnlock = 1) ∧
    (∀ t1, insertTexImage env t = .ok t1 →
      t1.lockCount = t.lockCount ∧
      (newCalls t t1).count .docLock = 1 ∧ (newCalls t t1).count .docUnlock = 1 ∧
      (newEntries t t1).countP (fun e => e.ev.isAddElement) = 1 ∧
      ∀ e ∈ newEntries t t1, e.ev.isAddElement = true → e.depth = t.lockCount + 1) ∧
    (∀ v l, t.view = some v → t.layer = some l → ∃ t1, insertTexImage env t = .ok t1) := by
  refine ⟨?_, ?_, ?_⟩
  · obtain ⟨h1, h2⟩ := findSelectedTexElement_log env s
    refine ⟨h1, ?_, ?_⟩
    · rw [newCalls, newEntries_of_append _ _ _ h2]
      split <;> simp
    · rw [newCalls, newEntries_of_append _ _ _ h2]
      split <;> simp
  · intro t0 hok0
    obtain ⟨v, l, hv, hl⟩ := insertTexImage_ok_inv env t t0 hok0
    obtain ⟨t1, errs, hok, hlock, herrs, _, hlog⟩ := insertTexImage_log env t v l hv hl
    have ht : t0 = t1 := by
      rw [hok0] at hok
      exact Except.ok.inj hok
    subst ht
    have hnew : newEntries t t0 = errs ++ (deletions t v).map (fun ev => ⟨ev, t.lockCount⟩) ++
        insertEntries t.lockCount t.page v l (loadRendered env t).1 := by
      apply newEntries_of_append
      rw [hlog]; simp
    have hdel : ∀ ev ∈ deletions t v, ∃ e vw p, ev = .deleteSelection e vw p := by
      intro ev hev
      unfold deletions at hev
      split at hev <;> simp at hev <;> exact ⟨_, _, _, hev⟩
    have hpre : ∀ e ∈ errs ++ (deletions t v).map (fun ev => (⟨ev, t.lockCount⟩ : Logged)),
        e.ev ≠ .docLock ∧ e.ev ≠ .docUnlock ∧ e.ev.isAddElement = false := by
      intro e he
      rcases List.mem_append.mp he with he | he
      · obtain ⟨msg, hmsg⟩ := herrs e he
        simp [hmsg, Event.isAddElement]
      · obtain ⟨ev, hev, rfl⟩ := List.mem_map.mp he
        obtain ⟨el, vw, p, rfl⟩ := hdel ev hev
        simp [Event.isAddElement]
    have hc1 : ∀ a : Event, (∀ e ∈ errs ++ (deletions t v).map
        (fun ev => (⟨ev, t.lockCount⟩ : Logged)), e.ev ≠ a) →
        ((errs ++ (deletions t v).map (fun ev => (⟨ev, t.lockCount⟩ : Logged))).map
          Logged.ev).count a = 0 := by
      intro a ha
      apply List.count_eq_zero.mpr
      intro hmem
      obtain ⟨e, he, rfl⟩ := List.mem_map.mp hmem
      exact ha e he rfl
    have hc2 : (errs ++ (deletions t v).map (fun ev => (⟨ev, t.lockCount⟩ : Logged))).countP
        (fun e => e.ev.isAddElement) = 0 := by
      apply List.countP_eq_zero.mpr
      intro e he
      simp [(hpre e he).2.2]
    refine ⟨hlock, ?_, ?_, ?_, ?_⟩
    · rw [newCalls, hnew, List.map_append, List.count_append,
        hc1 _ (fun e he => (hpre e he).1)]
      simp [insertEntries]
    · rw [newCalls, hnew, List.map_append, List.count_append,
        hc1 _ (fun e he => (hpre e he).2.1)]
      simp [insertEntries]
    · rw [hnew, List.countP_append, hc2]
      simp [insertEntries, Event.isAddElement]
    · intro e he hadd
      rw [hnew] at he
      rcases List.mem_append.mp he with he | he
      · rw [(hpre e he).2.2] at hadd
        exact absurd hadd (by decide)
      · simp [insertEntries] at he
        rcases he with rfl | rfl | rfl | rfl | rfl | rfl <;> simp_all [Event.isAddElement]
  · intro v l hv hl
    obtain ⟨t1, _, hok, _⟩ := insertTexImage_log env t v l hv hl
    exact ⟨t1, hok⟩

theorem lock_discipline_witness :
    readyState.view = some 1 ∧ readyState.layer = some 3 ∧
      (findSelectedTexElement exampleEnv (init "/tmp/tex")).lockCount = 0 ∧
      ∃ t1, insertTexImage exampleEnv readyState = .ok t1 ∧
        t1.lockCount = readyState.lockCount ∧ (newCalls readyState t1).count .docLock = 1 :=
  ⟨rfl, rfl,
    (lock_discipline exampleEnv (init "/tmp/tex") readyState).1.1,
    ((lock_discipline exampleEnv (init "/tmp/tex") readyState).2.2 1 3 rfl rfl).imp
      (fun t1 h => ⟨h, ((lock_discipline exampleEnv (init "/tmp/tex") readyState).2.1 t1 h).1,
        ((lock_discipline exampleEnv (init "/tmp/tex") readyState).2.1 t1 h).2.1⟩)⟩

/-- C7: `insertTexImage`, entered with a view and a layer, when `loadRendered`
yields an image `img`, returns, and its calls are, in this order: the deletion
of the previously selected element (the tex image if one is selected, or else
the text, or else none), `doc->lock()`, `layer->addElement(img)`,
`view->rerenderElement(img)`, `doc->unlock()`, `addUndoAction` of an
`InsertUndoAction(page, layer, img)`, and `setSelection` of a selection made of
`img`. So one element is added, it is `img`, one undo action is pushed by
`insertTexImage`, for the same `img`, and the last call selects `img`. -/
theorem insertTexImage_calls (env : Env) (s : State) (v : ViewRef) (l : LayerRef)
    (img : TexImage)
    (hv : s.view = some v) (hl : s.layer = some l)
    (himg : (loadRendered env s).1 = some img) :
    ∃ s1, insertTexImage env s = .ok s1 ∧
      newCalls s s1 = deletions s v ++
        [.docLock, .addElement l (some img), .rerenderElement v (some img), .docUnlock,
         .addUndoAction ⟨s.page, l, some img⟩, .setSelection ⟨some img, v, s.page⟩] ∧
      (deletions s v).length ≤ 1 ∧
      (∀ old, s.selectedTexImage = some old →
        deletions s v = [.deleteSelection (.tex old) v s.page]) := by
  obtain ⟨s1, errs, hok, _, _, hnil, hlog⟩ := insertTexImage_log env s v l hv hl
  refine ⟨s1, hok, ?_, ?_, ?_⟩
  · have herrs : errs = [] := hnil (by simp [himg])
    subst herrs
    rw [newCalls, newEntries_of_append s s1 _ (by rw [hlog]; simp; rfl)]
    rw [himg]
    simp [insertEntries, Function.comp_def]
  · unfold deletions
    split <;> simp
  · intro old hold
    simp [deletions, hold]

theorem insertTexImage_calls_witness :
    readyState.view = some 1 ∧ readyState.layer = some 3 ∧
      (loadRendered exampleEnv readyState).1 = some exampleImage ∧
      ∃ s1, insertTexImage exampleEnv readyState = .ok s1 ∧
        newCalls readyState s1 = deletions readyState 1 ++
          [.docLock, .addElement 3 (some exampleImage), .rerenderElement 1 (some exampleImage),
           .docUnlock, .addUndoAction ⟨readyState.page, 3, some exampleImage⟩,
           .setSelection ⟨some exampleImage, 1, readyState.page⟩] :=
  ⟨rfl, rfl, by with_unfolding_all decide,
    (insertTexImage_calls exampleEnv readyState 1 3 exampleImage rfl rfl
      (by with_unfolding_all decide)).imp (fun _ h => ⟨h.1, h.2.1⟩)⟩

/-- C8: over the rationals, for a document with at least one page whose first
page renders to a pixbuf of positive width `pw` and positive height `ph`:
when `imgheight` is not 0 the new image has height `imgheight` and width
`imgheight * pw / ph`, so that width over height is `pw / ph`; when `imgheight`
is 0 its width and height are `pw` and `ph`. In both cases its position is
`(posx, posy)`, its text is `currentTex` and its picture is the pixbuf. -/
theorem convertDocumentToImage_size (env : Env) (s : State) (doc : PopplerDocument)
    (hpages : 1 ≤ doc.nPages)
    (hpw : 0 < (renderFirstPage env doc).width) (hph : 0 < (renderFirstPage env doc).height) :
    (s.imgheight ≠ 0 →
      convertDocumentToImage env s doc = some
        { x := s.posx, y := s.posy,
          width := s.imgheight * (renderFirstPage env doc).width / (renderFirstPage env doc).height,
          height := s.imgheight,
          text := s.currentTex, image := renderFirstPage env doc } ∧
      s.imgheight * (renderFirstPage env doc).width / (renderFirstPage env doc).height / s.imgheight
        = ((renderFirstPage env doc).width : ℚ) / (renderFirstPage env doc).height) ∧
    (s.imgheight = 0 →
      convertDocumentToImage env s doc = some
        { x := s.posx, y := s.posy,
          width := (renderFirstPage env doc).width, height := (renderFirstPage env doc).height,
          text := s.currentTex, image := renderFirstPage env doc }) := by
  have hpwq : ((renderFirstPage env doc).width : ℚ) ≠ 0 := by exact_mod_cast hpw.ne'
  have hphq : ((renderFirstPage env doc).height : ℚ) ≠ 0 := by exact_mod_cast hph.ne'
  have hn : ¬ doc.nPages < 1 := by omega
  have hr : ((renderFirstPage env doc).width : ℚ) / (renderFirstPage env doc).height ≠ 0 :=
    div_ne_zero hpwq hphq
  constructor
  · intro h0
    constructor
    · unfold convertDocumentToImage
      rw [if_neg hn]
      simp only []
      rw [if_pos h0, if_neg hr, mul_div_assoc]
    · field_simp
      ring
  · intro h0
    simp [convertDocumentToImage, hn, h0]

theorem convertDocumentToImage_size_witness :
    1 ≤ exampleDoc.nPages ∧ 0 < (renderFirstPage exampleEnv exampleDoc).width ∧
      0 < (renderFirstPage exampleEnv exampleDoc).height ∧ replacingState.imgheight ≠ 0 ∧
      convertDocumentToImage exampleEnv replacingState exampleDoc =
        some ⟨0, 0, 24, 12, "a+b ", ⟨100, 50, by decide⟩⟩ := by
  refine ⟨by decide, by with_unfolding_all decide, by with_unfolding_all decide,
    by with_unfolding_all decide, ?_⟩
  rw [((convertDocumentToImage_size exampleEnv replacingState exampleDoc (by decide)
    (by with_unfolding_all decide) (by with_unfolding_all decide)).1
    (by with_unfolding_all decide)).1]
  with_unfolding_all decide

end LatexController
